import Mathlib

/-!
Verification of the SODATRA loading-optimizer backend

Shallow embedding of the Python sources under `src/src/` (models/item.py,
services/optimizer.py, services/fleet_optimizer.py) and proofs about them.

Modelling conventions:

* Python floats are modelled as exact rationals (`ℚ`).  All constants that
  appear in the source (`0.5`, `0.95`, `0.6`, ...) are taken at their decimal
  value; ulp-level binary-float rounding is not modelled.
* Python exceptions are modelled with `Except PyErr`.  `optimize` wraps its
  body in `try/except Exception`, which is modelled by pattern matching on the
  `Except` value.
* `random` is modelled by an explicit oracle (`Oracle`) consulted at every
  call site, threaded through a tick counter (`StateT ℕ`).  The oracle ranges
  over arbitrary answers, a superset of the behaviours of Python's RNG, so
  universally quantified theorems cover every real run.
* `OptimizationResult` is imported by services/optimizer.py from
  src.models.item but is defined nowhere in the repository; it is modelled
  from the spec (see its doc-string below).
-/

/-- Python exception kinds raised by the modelled code. -/
inductive PyErr where
  | typeError
  | attributeError
  | zeroDivisionError
  | valueError
  deriving Repr, DecidableEq

/-- Short message attached to the error result (`str(e)` in optimize's
`except` branch); the exact text is not claim-relevant. -/
def pyErrMsg : PyErr → String
  | PyErr.typeError => "TypeError"
  | PyErr.attributeError => "AttributeError"
  | PyErr.zeroDivisionError => "ZeroDivisionError"
  | PyErr.valueError => "ValueError"

/-- Python `int(x)` on a float: truncation toward zero. -/
def pyInt (q : ℚ) : ℤ := if 0 ≤ q then ⌊q⌋ else ⌈q⌉

/-- Python float division: raises `ZeroDivisionError` on a zero divisor. -/
def pyDiv (a b : ℚ) : Except PyErr ℚ :=
  if b = 0 then Except.error PyErr.zeroDivisionError else Except.ok (a / b)

/-- Python `range(0, stop, step)` for `step > 0`. -/
def pyRange0 (stop : ℤ) (step : ℕ) : List ℤ :=
  if stop ≤ 0 ∨ step = 0 then []
  else (List.range ((stop - 1).toNat / step + 1)).map (fun i => (i : ℤ) * step)

/-- One insertion step of a stable sort: `a` is inserted before the first
element `b` with `le a b = false`. -/
def insertBy {α : Type} (le : α → α → Bool) (a : α) : List α → List α
  | [] => [a]
  | b :: bs => if le a b then a :: b :: bs else b :: insertBy le a bs

/-- Stable insertion sort.  With `le a b := (key b ≤ key a)` this computes
exactly the result of Python's stable `list.sort(key=key, reverse=True)`:
descending, ties kept in original order. -/
def sortBy {α : Type} (le : α → α → Bool) (l : List α) : List α :=
  l.foldr (insertBy le) []

/-- Python `round(q)`: round half to even, as an integer. -/
def pyRoundInt (q : ℚ) : ℤ :=
  let f := ⌊q⌋
  let r := q - (f : ℚ)
  if r < 1/2 then f
  else if (1:ℚ)/2 < r then f + 1
  else if f % 2 = 0 then f else f + 1

/-- Python `round(q, 2)`: round half to even at two decimal places (binary
float artifacts are not modelled). -/
def pyRound2 (q : ℚ) : ℚ := (pyRoundInt (q * 100) : ℚ) / 100

/-! Data model, from src/src/models/item.py. -/

/-- The `Item` dataclass (models/item.py).  It defines `volume_cm3` / `volume_m3`
properties but no attribute named `volume`. -/
structure Item where
  length : ℚ
  width : ℚ
  height : ℚ
  weight : ℚ
  quantity : ℕ := 1
  id : String := ""
  reference : String := ""
  description : String := ""
  fragile : Bool := false
  stackable : Bool := true
  deriving Repr, DecidableEq

/-- The `Item.volume_cm3` property. -/
def Item.volume_cm3 (it : Item) : ℚ := it.length * it.width * it.height

/-- The `Item.rotations` (models/item.py): 0° and 90° in the L/W plane, collapsed
to one when `|L - W| < 1e-9`; the height never rotates into the base.
Present in the model layer but never called by services/optimizer.py. -/
def Item.rotations (it : Item) (allow_rotation : Bool := true) :
    List (ℚ × ℚ × ℚ) :=
  if allow_rotation = false then [(it.length, it.width, it.height)]
  else if |it.length - it.width| < 1/1000000000 then
    [(it.length, it.width, it.height)]
  else [(it.length, it.width, it.height), (it.width, it.length, it.height)]

/-- The `_normalize_cm` (models/item.py): unit heuristic for item dimensions.
Truck dimensions (`is_truck = true`) pass through unchanged. -/
def normalizeCm (v : ℚ) (is_truck : Bool := false) : ℚ :=
  if is_truck then v
  else if 1000 ≤ v then v * (1/10)
  else if 0 < v ∧ v ≤ 10 then v * 100
  else v

/-- The `Item.from_dict` composed with `Item.normalized` (models/item.py):
each dimension goes through `_normalize_cm`, the weight is kept, the
quantity is clamped to at least 1, `id`/`reference` fall back to each
other. -/
def Item.fromDict (length width height weight : ℚ) (quantity : ℕ)
    (id? reference? : Option String) (stackable : Bool) : Item :=
  { length := normalizeCm length
    width := normalizeCm width
    height := normalizeCm height
    weight := weight
    quantity := max 1 quantity
    id := id?.getD (reference?.getD "")
    reference := reference?.getD (id?.getD "")
    description := ""
    fragile := false
    stackable := stackable }

/-- The `TruckSpecs` dataclass (models/item.py).  It defines `volume_cm3` /
`volume_m3` / `floor_area_m2` properties but no attribute named `volume`. -/
structure TruckSpecs where
  length : ℚ
  width : ℚ
  height : ℚ
  max_weight : ℚ
  id : String := ""
  name : String := ""
  base_cost_fcfa : ℚ := 0
  cost_per_km_fcfa : ℚ := 0
  deriving Repr, DecidableEq

/-- The `TruckSpecs.volume_cm3` property. -/
def TruckSpecs.volume_cm3 (t : TruckSpecs) : ℚ := t.length * t.width * t.height

/-- The `TruckSpecs.from_dict` (models/item.py): dimensions go through
`_normalize_cm(..., is_truck=True)`, i.e. unchanged. -/
def TruckSpecs.fromDict (length width height max_weight : ℚ) : TruckSpecs :=
  { length := normalizeCm length true
    width := normalizeCm width true
    height := normalizeCm height true
    max_weight := max_weight }

/-- The `Placement` dataclass (models/item.py).  `weight` has no default: it is a
required constructor argument. -/
structure Placement where
  item_id : String
  x : ℚ
  y : ℚ
  z : ℚ
  length : ℚ
  width : ℚ
  height : ℚ
  weight : ℚ
  reference : String := ""
  stackable : Bool := true
  deriving Repr, DecidableEq

/-- The `AlgorithmConfig` dataclass (models/item.py) with its defaults. -/
structure AlgorithmConfig where
  algorithm : String := "genetic"
  population_size : ℕ := 30
  generations : ℕ := 50
  mutation_rate : ℚ := 1/10
  crossover_rate : ℚ := 8/10
  elitism_rate : ℚ := 1/10
  timeout_seconds : ℕ := 300
  grid_step_cm : ℕ := 5
  allow_rotation : Bool := true
  min_support_ratio : ℚ := 7/10
  clearance_cm : ℚ := 0
  max_height_ratio : ℚ := 1
  deriving Repr, DecidableEq

/-- Modelled from the spec: `OptimizationResult` is imported by
services/optimizer.py from `src.models.item` but is defined nowhere under
the repository.  Fields follow spec §6 (`truck_specs`, `items_total`,
`items_placed`, efficiencies, `placements`) together with the keyword
arguments used by the constructor calls in services/optimizer.py
(`success`, `error_message`, `fitness`, `algorithm_used`); unsupplied
fields default as those calls require.  The wall-clock `computation_time`
is not modelled. -/
structure OptimizationResult where
  success : Bool
  items_placed : ℕ
  items_total : ℕ
  weight_efficiency : ℚ
  volume_efficiency : ℚ
  placements : List Placement := []
  fitness : ℚ := 0
  error_message : Option String := none
  algorithm_used : String := ""
  truck_specs : Option TruckSpecs := none
  deriving Repr, DecidableEq

/-- The `Individual` dataclass (services/optimizer.py). -/
structure Individual where
  placements : List Placement
  fitness : ℚ := 0
  valid : Bool := true
  deriving Repr, DecidableEq

/-! Geometry kernel, from services/optimizer.py. -/

/-- A candidate origin `(x, y, z)` in cm. -/
abbrev Pos := ℚ × ℚ × ℚ

/-- The `_check_collision` (optimizer.py): strict 3-D overlap against each
existing placement; touching faces do not collide. -/
def checkCollision (item : Item) (p : Pos) (ps : List Placement) : Bool :=
  ps.any fun q =>
    decide (p.1 < q.x + q.length) && decide (p.1 + item.length > q.x) &&
    decide (p.2.1 < q.y + q.width) && decide (p.2.1 + item.width > q.y) &&
    decide (p.2.2 < q.z + q.height) && decide (p.2.2 + item.height > q.z)

/-- Planar overlap between the new item's footprint at `p` and placement `q`
(the expression summed inside `_check_support`). -/
def overlapXY (item : Item) (p : Pos) (q : Placement) : ℚ :=
  max 0 (min (p.1 + item.length) (q.x + q.length) - max p.1 q.x) *
  max 0 (min (p.2.1 + item.width) (q.y + q.width) - max p.2.1 q.y)

/-- The support area accumulated by `_check_support`: planar overlaps against
every placement whose top is within 1.0 cm of the candidate `z`. -/
def supportArea (item : Item) (p : Pos) (ps : List Placement) : ℚ :=
  ps.foldl
    (fun acc q => if |q.z + q.height - p.2.2| < 1 then acc + overlapXY item p q else acc)
    0

/-- The `_check_support` (optimizer.py): at least 50 % of the base area must rest
on tops within 1.0 cm of `z`.  The `stackable` flag of the supporters is
never consulted, and `config.min_support_ratio` is never read. -/
def checkSupport (item : Item) (p : Pos) (ps : List Placement) : Bool :=
  decide (item.length * item.width * (1/2) ≤ supportArea item p ps)

/-- The `_find_first_fit_position` (optimizer.py): scan a 10-cm grid, z outermost
then y then x, and return the first origin that is collision-free and
(at z = 0, or) supported.  The item is never rotated. -/
def findFirstFitPos (truck : TruckSpecs) (item : Item) (ps : List Placement) :
    Option Pos :=
  let step : ℕ := 10
  let zs := pyRange0 (pyInt (truck.height - item.height) + 1) step
  let ys := pyRange0 (pyInt (truck.width - item.width) + 1) step
  let xs := pyRange0 (pyInt (truck.length - item.length) + 1) step
  zs.findSome? fun z => ys.findSome? fun y => xs.findSome? fun x =>
    let pos : Pos := ((x : ℚ), (y : ℚ), (z : ℚ))
    if checkCollision item pos ps = false ∧ (z = 0 ∨ checkSupport item pos ps = true)
    then some pos else none

/-! The simple algorithm, from services/optimizer.py. -/

/-- The `item.volume` read in `_optimize_simple` (optimizer.py:86/107): the
`Item` dataclass defines `volume_cm3`/`volume_m3` but no `volume`, so the
attribute access raises `AttributeError`. -/
def itemVolumeAttr (_ : Item) : Except PyErr ℚ := Except.error PyErr.attributeError

/-- The `self.truck_specs.volume` read in `_optimize_simple` (optimizer.py:112)
and `_optimize_genetic` (optimizer.py:241/324): `TruckSpecs` defines
`volume_cm3`/`volume_m3` but no `volume`, so the attribute access raises
`AttributeError`. -/
def truckVolumeAttr (_ : TruckSpecs) : Except PyErr ℚ :=
  Except.error PyErr.attributeError

/-- The `Placement(item_id=..., x=..., y=..., z=..., length=..., width=...,
height=...)` as constructed in `_optimize_simple` (optimizer.py:96) and
`_initialize_population` (optimizer.py:280): the call omits the required
`weight` field of the `Placement` dataclass, so Python raises
`TypeError`. -/
def placementCtorMissingWeight (_item_id : String) (_p : Pos) (_it : Item) :
    Except PyErr Placement :=
  Except.error PyErr.typeError

/-- The `expanded_items.sort(key=lambda x: x[0].volume, reverse=True)`
(optimizer.py:86).  For a nonempty list CPython evaluates the key, which
accesses the nonexistent `Item.volume` and raises `AttributeError`; an
empty list sorts to itself without invoking the key. -/
def sortExpandedByVolume : List (Item × ℕ) → Except PyErr (List (Item × ℕ))
  | [] => Except.ok []
  | _ :: _ => Except.error PyErr.attributeError

/-- Quantity expansion in `_optimize_simple`: each item repeated
`quantity` times, tagged with its instance index. -/
def expandSimple (items : List Item) : List (Item × ℕ) :=
  items.flatMap fun it => (List.range it.quantity).map fun i => (it, i)

/-- The sequential placement loop of `_optimize_simple`: state is
(placements, placed_weight, placed_volume). -/
def simpleStep (truck : TruckSpecs) (st : List Placement × ℚ × ℚ)
    (ii : Item × ℕ) : Except PyErr (List Placement × ℚ × ℚ) :=
  match findFirstFitPos truck ii.1 st.1 with
  | some pos =>
      if st.2.1 + ii.1.weight ≤ truck.max_weight then do
        let pl ← placementCtorMissingWeight
          (ii.1.reference ++ "_" ++ toString ii.2) pos ii.1
        let pv ← itemVolumeAttr ii.1
        Except.ok (st.1 ++ [pl], st.2.1 + ii.1.weight, st.2.2 + pv)
      else Except.ok st
  | none => Except.ok st

/-- The `_optimize_simple` (optimizer.py): expand, sort by the (nonexistent)
`volume` key, place sequentially, then compute the efficiency metrics —
the last of which reads the nonexistent `truck_specs.volume`. -/
def optimizeSimple (items : List Item) (truck : TruckSpecs) :
    Except PyErr OptimizationResult := do
  let sorted ← sortExpandedByVolume (expandSimple items)
  let st ← sorted.foldlM (simpleStep truck) ([], 0, 0)
  let totalItems := (items.map (·.quantity)).sum
  let wEff ← pyDiv st.2.1 truck.max_weight
  let tv ← truckVolumeAttr truck
  let vEff ← pyDiv st.2.2 tv
  Except.ok
    { success := true
      items_placed := st.1.length
      items_total := totalItems
      weight_efficiency := wEff * 100
      volume_efficiency := vEff * 100
      placements := st.1 }

/-! The genetic algorithm, from services/optimizer.py.

`random` is abstracted by an oracle indexed by a tick counter; every call
site consumes one tick.  The oracle's answers are unconstrained, which makes
them a superset of the draws Python's RNG can produce, so theorems
quantified over the oracle cover every real execution. -/

/-- RNG oracle: `shuffle` answers `random.shuffle`, `uniform` answers
`random.uniform(lo, hi)`, `rand` answers `random.random()`, `pick` answers
an index draw used for `random.sample` / `random.randint`. -/
structure Oracle where
  shuffle : ℕ → List (Item × String) → List (Item × String)
  uniform : ℕ → ℚ → ℚ → ℚ
  rand : ℕ → ℚ
  pick : ℕ → ℕ → ℕ

/-- Computation threading the RNG tick counter over Python exceptions. -/
abbrev GaM (α : Type) := StateT ℕ (Except PyErr) α

/-- Consume one RNG tick. -/
def tick : GaM ℕ := fun t => Except.ok (t, t + 1)

/-- Lift a possibly-raising computation into `GaM`. -/
def liftE {α : Type} (e : Except PyErr α) : GaM α :=
  fun t => match e with
  | Except.ok a => Except.ok (a, t)
  | Except.error err => Except.error err

/-- Fallback values for list indexing that cannot occur at run time
(the index is always reduced modulo a positive length). -/
def dummyPlacement : Placement :=
  { item_id := "", x := 0, y := 0, z := 0, length := 0, width := 0, height := 0, weight := 0 }

def dummyIndividual : Individual := { placements := [] }

/-- The `_find_random_position` (optimizer.py): up to 50 uniform draws inside the
truck; accept when collision-free and either `z < 10` or supported. -/
def findRandomPosGo (o : Oracle) (truck : TruckSpecs) (item : Item)
    (ps : List Placement) : ℕ → GaM (Option Pos)
  | 0 => pure none
  | n + 1 => do
    let t1 ← tick
    let x := o.uniform t1 0 (max 0 (truck.length - item.length))
    let t2 ← tick
    let y := o.uniform t2 0 (max 0 (truck.width - item.width))
    let t3 ← tick
    let z := o.uniform t3 0 (max 0 (truck.height - item.height))
    let pos : Pos := (x, y, z)
    if checkCollision item pos ps = false ∧ (z < 10 ∨ checkSupport item pos ps = true)
    then pure (some pos) else findRandomPosGo o truck item ps n

def findRandomPosition (o : Oracle) (truck : TruckSpecs) (item : Item)
    (ps : List Placement) : GaM (Option Pos) :=
  findRandomPosGo o truck item ps 50

/-- Body of the per-item loop of `_initialize_population`: skip the item when
the weight budget would be exceeded, otherwise look for a random position and
(on success) construct the `Placement` — which raises `TypeError` because the
call omits the required `weight` argument. -/
def initItemStep (o : Oracle) (truck : TruckSpecs)
    (st : List Placement × ℚ) (iu : Item × String) : GaM (List Placement × ℚ) :=
  if truck.max_weight < st.2 + iu.1.weight then pure st
  else do
    let pos ← findRandomPosition o truck iu.1 st.1
    match pos with
    | some p => do
        let pl ← liftE (placementCtorMissingWeight iu.2 p iu.1)
        pure (st.1 ++ [pl], st.2 + iu.1.weight)
    | none => pure st

/-- The `_initialize_population` (optimizer.py): `population_size` individuals,
each built by shuffling the expanded items and greedily placing them. -/
def initPopulation (o : Oracle) (truck : TruckSpecs)
    (expanded : List (Item × String)) : ℕ → GaM (List Individual)
  | 0 => pure []
  | n + 1 => do
    let t ← tick
    let shuffled := o.shuffle t expanded
    let st ← shuffled.foldlM (initItemStep o truck) ([], 0)
    let rest ← initPopulation o truck expanded n
    pure ({ placements := st.1 } :: rest)

/-- The `_get_placement_weight` (optimizer.py): split the placement id on `_`,
take the head as the reference, and look the weight up in `self.items`. -/
def getPlacementWeight (items : List Item) (p : Placement) : ℚ :=
  let ref := (p.item_id.splitOn "_").headD ""
  match items.find? (fun it => it.reference == ref) with
  | some it => it.weight
  | none => 0

/-- The `_get_item_weight` (optimizer.py): look the weight up in the expanded
unit-item list by exact id. -/
def getItemWeight (expanded : List (Item × String)) (iid : String) : ℚ :=
  match expanded.find? (fun iu => iu.2 == iid) with
  | some iu => iu.1.weight
  | none => 0

/-- The `_calculate_penalties` (optimizer.py): +10 when the mean of `z + H/2`
exceeds `0.6 · truck.height`, plus `0.1 · weight` for every placement with
`z > 100` and looked-up weight `> 50`. -/
def calculatePenalties (items : List Item) (truck : TruckSpecs)
    (ps : List Placement) : ℚ :=
  let base : ℚ :=
    if ps.length ≠ 0 then
      let avg := ((ps.map fun p => p.z + p.height / 2).sum) / (ps.length : ℚ)
      if truck.height * (6/10) < avg then 10 else 0
    else 0
  ps.foldl
    (fun pen p =>
      let w := getPlacementWeight items p
      if 100 < p.z ∧ 50 < w then pen + w * (1/10) else pen)
    base

/-- The `_evaluate_fitness` (optimizer.py): empty individuals score 0.0;
otherwise the weight ratio is computed first (optimizer.py:323) and the
volume ratio then reads the nonexistent `truck_specs.volume`
(optimizer.py:324), raising `AttributeError`. -/
def evaluateFitness (items : List Item) (truck : TruckSpecs)
    (ind : Individual) : Except PyErr ℚ :=
  if ind.placements = [] then Except.ok 0
  else do
    let placedWeight := (ind.placements.map (getPlacementWeight items)).sum
    let placedVolume := (ind.placements.map fun p => p.length * p.width * p.height).sum
    let weightRatio ← pyDiv placedWeight truck.max_weight
    let tv ← truckVolumeAttr truck
    let volumeRatio ← pyDiv placedVolume tv
    let fit := (ind.placements.length : ℚ) * (4/10)
      + volumeRatio * 100 * (3/10) + weightRatio * 100 * (3/10)
    Except.ok (fit - calculatePenalties items truck ind.placements)

/-- The `_find_item_by_id` (optimizer.py). -/
def findItemById (expanded : List (Item × String)) (iid : String) : Option Item :=
  match expanded.find? (fun iu => iu.2 == iid) with
  | some iu => some iu.1
  | none => none

/-- The `_tournament_selection` (optimizer.py): sample `min(3, len(population))`
individuals (oracle-chosen indices) and return the first fittest; `max` over
an empty sample raises `ValueError`. -/
def tournamentSelection (o : Oracle) (pop : List Individual) : GaM Individual := do
  let k := min 3 pop.length
  let idxs ← (List.range k).mapM fun _ => do
    let t ← tick
    pure (o.pick t pop.length)
  let chosen := idxs.map fun i => pop.getD (i % max pop.length 1) dummyIndividual
  match chosen with
  | [] => liftE (Except.error PyErr.valueError)
  | c :: cs =>
      pure (cs.foldl (fun best x => if best.fitness < x.fitness then x else best) c)

/-- The `_crossover` (optimizer.py): first half of parent 1, then every placement
of parent 2 whose item is known and does not collide with the child so far.
Neither the weight budget nor duplicate unit ids are checked here. -/
def crossover (p1 p2 : Individual) (expanded : List (Item × String)) : Individual :=
  let cp := p1.placements.length / 2
  let base := p1.placements.take cp
  let child := p2.placements.foldl
    (fun acc pl =>
      match findItemById expanded pl.item_id with
      | some item =>
          if checkCollision item (pl.x, pl.y, pl.z) acc = false then acc ++ [pl] else acc
      | none => acc)
    base
  { placements := child }

/-- The `_mutate` (optimizer.py): with probability 1/2 move one random placement
to a fresh random position (the coordinate update on the list element models
the in-place assignment `placement.x, placement.y, placement.z = ...`). -/
def mutate (o : Oracle) (truck : TruckSpecs) (expanded : List (Item × String))
    (ind : Individual) : GaM Individual := do
  if ind.placements = [] then pure ind
  else do
    let t ← tick
    if o.rand t < 1/2 ∧ ind.placements ≠ [] then do
      let t2 ← tick
      let idx := o.pick t2 ind.placements.length % max ind.placements.length 1
      let pl := ind.placements.getD idx dummyPlacement
      match findItemById expanded pl.item_id with
      | some item => do
          let temp := ind.placements.take idx ++ ind.placements.drop (idx + 1)
          let newPos ← findRandomPosition o truck item temp
          match newPos with
          | some p =>
              pure { ind with placements :=
                ind.placements.set idx { pl with x := p.1, y := p.2.1, z := p.2.2 } }
          | none => pure ind
      | none => pure ind
    else pure ind

/-- Mutable loop state of `_optimize_genetic`: current population, best
individual so far with its fitness (`none` models the initial `-inf`), and
the no-improvement counter. -/
structure GaState where
  population : List Individual
  best : Option Individual
  bestFit : Option ℚ
  gwi : ℕ
  deriving Repr

/-- The `individual.fitness > best_fitness` against the running best
(`-inf` initially). -/
def beatsBest (f : ℚ) : Option ℚ → Bool
  | none => true
  | some b => decide (b < f)

/-- The evaluation loop at the top of each generation: assign fitness to
every individual (in order), track the best by deep copy, and update the
no-improvement counter per individual. -/
def evalPopulation (items : List Item) (truck : TruckSpecs)
    (pop : List Individual) (best : Option Individual) (bestFit : Option ℚ)
    (gwi : ℕ) :
    Except PyErr (List Individual × Option Individual × Option ℚ × ℕ) :=
  match pop with
  | [] => Except.ok ([], best, bestFit, gwi)
  | ind :: rest => do
      let f ← evaluateFitness items truck ind
      let ind' := { ind with fitness := f }
      let (best', bestFit', gwi') :=
        if beatsBest f bestFit then (some ind', some f, 0) else (best, bestFit, gwi + 1)
      let (rest', b, bf, g) ← evalPopulation items truck rest best' bestFit' gwi'
      Except.ok (ind' :: rest', b, bf, g)

/-- Python's `population[:elite_size]` where `elite_size` may be negative
(`int(len(population) * elitism_rate)`): a negative bound slices from the
end. -/
def pySliceTo (l : List Individual) (k : ℤ) : List Individual :=
  if 0 ≤ k then l.take k.toNat else l.take ((l.length : ℤ) + k).toNat

/-- The offspring while-loop: fill the next population up to
`population_size` via tournament selection, crossover (probability
`crossover_rate`) and mutation (probability `mutation_rate`). -/
def offspringGo (o : Oracle) (items : List Item) (truck : TruckSpecs)
    (cfg : AlgorithmConfig) (expanded : List (Item × String))
    (pop : List Individual) : List Individual → ℕ → GaM (List Individual)
  | acc, 0 => pure acc
  | acc, n + 1 =>
    if cfg.population_size ≤ acc.length then pure acc
    else do
      let p1 ← tournamentSelection o pop
      let p2 ← tournamentSelection o pop
      let t ← tick
      let child := if o.rand t < cfg.crossover_rate then crossover p1 p2 expanded else p1
      let t2 ← tick
      let child ← if o.rand t2 < cfg.mutation_rate
        then mutate o truck expanded child else pure child
      offspringGo o items truck cfg expanded pop (acc ++ [child]) n

/-- The generation loop of `_optimize_genetic`: evaluate, stop early after
more than 20 evaluations without improvement, keep the elite, breed the
rest. -/
def gaLoop (o : Oracle) (items : List Item) (truck : TruckSpecs)
    (cfg : AlgorithmConfig) (expanded : List (Item × String)) :
    ℕ → GaState → GaM GaState
  | 0, st => pure st
  | g + 1, st => do
    let (pop', best', bestFit', gwi') ←
      liftE (evalPopulation items truck st.population st.best st.bestFit st.gwi)
    if 20 < gwi' then
      pure { population := pop', best := best', bestFit := bestFit', gwi := gwi' }
    else do
      let sorted := sortBy (fun a b => decide (b.fitness ≤ a.fitness)) pop'
      let eliteSize := pyInt ((sorted.length : ℚ) * cfg.elitism_rate)
      let elite := pySliceTo sorted eliteSize
      let newPop ← offspringGo o items truck cfg expanded sorted elite cfg.population_size
      gaLoop o items truck cfg expanded g
        { population := newPop, best := best', bestFit := bestFit', gwi := gwi' }

/-- Quantity expansion in `_optimize_genetic`: ids are
`f"{item.reference}_{i}"`. -/
def expandGenetic (items : List Item) : List (Item × String) :=
  items.flatMap fun it =>
    (List.range it.quantity).map fun i => (it, it.reference ++ "_" ++ toString i)

/-- Result construction of `_optimize_genetic` (optimizer.py:235-260).  With
a best individual, the efficiency metrics are computed — the volume metric
reads the nonexistent `truck_specs.volume` (optimizer.py:241) and raises
`AttributeError`; with no best individual a failure result is returned. -/
def geneticResult (items : List Item) (truck : TruckSpecs)
    (expanded : List (Item × String)) (st : GaState) : GaM OptimizationResult :=
  match st.best with
  | some best => do
      let totalItems := (items.map (·.quantity)).sum
      let placedWeight := (best.placements.map fun p => getItemWeight expanded p.item_id).sum
      let placedVolume := (best.placements.map fun p => p.length * p.width * p.height).sum
      let wEff ← liftE (pyDiv placedWeight truck.max_weight)
      let tv ← liftE (truckVolumeAttr truck)
      let vEff ← liftE (pyDiv placedVolume tv)
      pure
        { success := true
          items_placed := best.placements.length
          items_total := totalItems
          weight_efficiency := wEff * 100
          volume_efficiency := vEff * 100
          fitness := st.bestFit.getD 0
          placements := best.placements }
  | none =>
      pure
        { success := false
          items_placed := 0
          items_total := (items.map (·.quantity)).sum
          weight_efficiency := 0
          volume_efficiency := 0
          error_message := some "Aucune solution trouvee" }

/-- The `_optimize_genetic` (optimizer.py). -/
def optimizeGenetic (o : Oracle) (items : List Item) (truck : TruckSpecs)
    (cfg : AlgorithmConfig) : GaM OptimizationResult := do
  let expanded := expandGenetic items
  let pop ← initPopulation o truck expanded cfg.population_size
  let st ← gaLoop o items truck cfg expanded cfg.generations
    { population := pop, best := none, bestFit := none, gwi := 0 }
  geneticResult items truck expanded st

/-- The `LoadingOptimizer.optimize` (optimizer.py): dispatch on the algorithm
name (anything else raises `ValueError`), catch every exception into a
failure result, and stamp the algorithm onto the result. -/
def optimize (o : Oracle) (items : List Item) (truck : TruckSpecs)
    (cfg : AlgorithmConfig) : OptimizationResult :=
  let attempt : Except PyErr OptimizationResult :=
    if cfg.algorithm = "simple" then optimizeSimple items truck
    else if cfg.algorithm = "genetic" then
      match optimizeGenetic o items truck cfg 0 with
      | Except.ok (r, _) => Except.ok r
      | Except.error e => Except.error e
    else Except.error PyErr.valueError
  match attempt with
  | Except.ok r => { r with algorithm_used := cfg.algorithm, truck_specs := some truck }
  | Except.error e =>
      { success := false
        items_placed := 0
        items_total := (items.map (·.quantity)).sum
        weight_efficiency := 0
        volume_efficiency := 0
        error_message := some (pyErrMsg e)
        algorithm_used := cfg.algorithm }

/-! Fleet optimizer, from services/fleet_optimizer.py.

The module-level `TRUCK_SPECS` dictionary, the analysis, the compatibility
filter, the greedy allocation and `suggest_scenarios` are embedded below.
The destination is the constructor default `dakar_local` (cost multiplier
1.0); purely presentational output fields (`description`, `cost_breakdown`,
`warnings`, `destinations_available`, `estimated_duration_days`,
`legal_compliance`) are not modelled. -/

/-- One entry of the `TRUCK_SPECS` class dictionary. -/
structure CatalogSpec where
  key : String
  name : String
  length : ℚ
  width : ℚ
  height : ℚ
  max_weight : ℚ
  volume : ℚ
  floor_area : ℚ
  base_cost : ℚ
  deriving Repr, DecidableEq

/-- The `FleetOptimizer.TRUCK_SPECS`, in dictionary insertion order. -/
def truckCatalog : List CatalogSpec :=
  [ { key := "heavy_modular", name := "Convoi Exceptionnel (Remorque Modulaire)",
      length := 1500, width := 300, height := 350, max_weight := 100000,
      volume := 157.5, floor_area := 45, base_cost := 1500000 },
    { key := "truck_40t", name := "Camion 40 tonnes (Semi-remorque)",
      length := 1360, width := 248, height := 270, max_weight := 40000,
      volume := 91.06, floor_area := 33.7, base_cost := 300000 },
    { key := "truck_26t", name := "Camion 26 tonnes",
      length := 1200, width := 248, height := 270, max_weight := 26000,
      volume := 80.35, floor_area := 29.7, base_cost := 200000 },
    { key := "truck_19t", name := "Camion 19 tonnes (Porteur)",
      length := 850, width := 245, height := 260, max_weight := 19000,
      volume := 54, floor_area := 20.8, base_cost := 150000 },
    { key := "van_3t5", name := "Camionnette 3.5 tonnes",
      length := 420, width := 200, height := 200, max_weight := 3500,
      volume := 16.8, floor_area := 8.4, base_cost := 50000 } ]

/-- The `list(TRUCK_SPECS.keys())`. -/
def catalogKeys : List String := truckCatalog.map (·.key)

/-- Dictionary lookup in `TRUCK_SPECS`. -/
def catalogFind (t : String) : Option CatalogSpec :=
  truckCatalog.find? (·.key == t)

/-- Fallback spec for lookups that cannot fail at run time. -/
def dummyCatalogSpec : CatalogSpec :=
  { key := "", name := "", length := 0, width := 0, height := 0,
    max_weight := 0, volume := 0, floor_area := 0, base_cost := 0 }

/-- The `_analyze_items` summary (rounded exactly where the source
rounds). -/
structure FleetAnalysis where
  total_volume_m3 : ℚ
  total_weight_kg : ℚ
  total_weight_t : ℚ
  required_floor_m2 : ℚ
  total_pieces : ℕ
  maxL : ℚ
  maxW : ℚ
  maxH : ℚ
  max_single_weight : ℚ
  oversized : ℕ
  heavy : ℕ
  deriving Repr, DecidableEq

/-- The `_analyze_items` (fleet_optimizer.py). -/
def analyzeItems (items : List Item) : FleetAnalysis :=
  let totalVolume := (items.map fun it =>
    it.length * it.width * it.height / 1000000 * (it.quantity : ℚ)).sum
  let totalWeight := (items.map fun it => it.weight * (it.quantity : ℚ)).sum
  let requiredFloor := (items.map fun it =>
    let floorItem := it.length * it.width / 10000
    if it.stackable = false then floorItem * (it.quantity : ℚ)
    else floorItem * (it.quantity : ℚ) / 2).sum
  { total_volume_m3 := pyRound2 totalVolume
    total_weight_kg := (pyRoundInt totalWeight : ℚ)
    total_weight_t := pyRound2 (totalWeight / 1000)
    required_floor_m2 := pyRound2 requiredFloor
    total_pieces := (items.map (·.quantity)).sum
    maxL := items.foldl (fun m it => max m it.length) 0
    maxW := items.foldl (fun m it => max m it.width) 0
    maxH := items.foldl (fun m it => max m it.height) 0
    max_single_weight := items.foldl (fun m it => max m it.weight) 0
    oversized := (items.map fun it =>
      if 1200 < it.length ∨ 240 < it.width ∨ 270 < it.height then it.quantity else 0).sum
    heavy := (items.map fun it => if 5000 < it.weight then it.quantity else 0).sum }

/-- The per-truck compatibility test of `_filter_compatible_trucks`: the
largest dimensions fit with a 2 cm margin and the heaviest single item is
within the payload. -/
def truckCompatOK (an : FleetAnalysis) (spec : CatalogSpec) : Bool :=
  decide (an.maxL - 2 ≤ spec.length) && decide (an.maxW - 2 ≤ spec.width) &&
  decide (an.maxH - 2 ≤ spec.height) && decide (an.max_single_weight ≤ spec.max_weight)

/-- The `_filter_compatible_trucks` (fleet_optimizer.py): keep the compatible
trucks of `available`, but fall back to the FULL catalog when none is
compatible. -/
def filterCompatibleTrucks (an : FleetAnalysis) (available : List String) :
    List String :=
  let compatible := available.filter fun t =>
    match catalogFind t with
    | some spec => truckCompatOK an spec
    | none => false
  if compatible = [] then catalogKeys else compatible

/-- The flat unit-item dictionaries built by `_allocate_items_to_trucks`. -/
structure FleetUnit where
  uid : String
  name : String
  length : ℚ
  width : ℚ
  height : ℚ
  weight : ℚ
  volume : ℚ
  floor_area : ℚ
  stackable : Bool
  deriving Repr, DecidableEq

/-- Quantity expansion into `FleetUnit`s; ids are `f"{reference}_{i+1}"`. -/
def expandFleet (items : List Item) : List FleetUnit :=
  items.flatMap fun it =>
    (List.range it.quantity).map fun i =>
      { uid := it.reference ++ "_" ++ toString (i + 1)
        name := it.description
        length := it.length
        width := it.width
        height := it.height
        weight := it.weight
        volume := it.length * it.width * it.height / 1000000
        floor_area := it.length * it.width / 10000
        stackable := it.stackable }

/-- Floor area consumed by one unit: halved when stackable. -/
def unitFloor (u : FleetUnit) : ℚ :=
  if u.stackable then u.floor_area / 2 else u.floor_area

/-- One filled truck of an allocation. -/
structure TruckLoad where
  ttype : String
  name : String
  items : List FleetUnit
  item_count : ℕ
  volume_used : ℚ
  weight_used : ℚ
  floor_used : ℚ
  volume_capacity : ℚ
  weight_capacity : ℚ
  floor_capacity : ℚ
  volume_fill_rate : ℚ
  weight_fill_rate : ℚ
  floor_fill_rate : ℚ
  fill_rate : ℚ
  deriving Repr, DecidableEq

/-- The inner while-loop of `_allocate_items_to_trucks`: walk the remaining
units in order and greedily take every one that fits the three soft caps. -/
def greedyFill (vcap wcap fcap : ℚ) :
    List FleetUnit → List FleetUnit → List FleetUnit → ℚ → ℚ → ℚ →
    (List FleetUnit × List FleetUnit × ℚ × ℚ × ℚ)
  | [], taken, kept, v, w, f => (taken, kept.reverse, v, w, f)
  | u :: rest, taken, kept, v, w, f =>
      if v + u.volume ≤ vcap ∧ w + u.weight ≤ wcap ∧ f + unitFloor u ≤ fcap then
        greedyFill vcap wcap fcap rest (taken ++ [u]) kept (v + u.volume) (w + u.weight)
          (f + unitFloor u)
      else greedyFill vcap wcap fcap rest taken (u :: kept) v w f

/-- The outer while-loop of `_allocate_items_to_trucks`.  Each pass either
performs the single reprioritization towards `heavy_modular` or opens and
fills one truck, so `fuel := |units| + 2` bounds the iterations; the source
additionally breaks once more than 50 trucks have been opened. -/
def allocateGo (available : List String) :
    ℕ → List String → List FleetUnit → List TruckLoad → List TruckLoad
  | 0, _, _, acc => acc
  | _ + 1, _, [], acc => acc
  | fuel + 1, priority, first :: rest, acc =>
      let best := (priority.find? fun t => (catalogFind t).isSome).getD "heavy_modular"
      let spec := (catalogFind best).getD dummyCatalogSpec
      let wcap := spec.max_weight * (95/100)
      if wcap < first.weight ∧ best ≠ "heavy_modular" ∧ "heavy_modular" ∈ available then
        allocateGo available fuel
          ("heavy_modular" :: priority.filter (· ≠ "heavy_modular")) (first :: rest) acc
      else
        let vcap := spec.volume * (85/100)
        let fcap := spec.floor_area * (9/10)
        let (taken, kept, v, w, f) :=
          greedyFill vcap wcap fcap rest [first] [] first.volume first.weight
            (unitFloor first)
        let volFill := if 0 < spec.volume then v / spec.volume else 0
        let wFill := if 0 < spec.max_weight then w / spec.max_weight else 0
        let fFill := if 0 < spec.floor_area then f / spec.floor_area else 0
        let load : TruckLoad :=
          { ttype := best, name := spec.name, items := taken,
            item_count := taken.length,
            volume_used := pyRound2 v, weight_used := (pyRoundInt w : ℚ),
            floor_used := pyRound2 f,
            volume_capacity := spec.volume, weight_capacity := spec.max_weight,
            floor_capacity := spec.floor_area,
            volume_fill_rate := pyRound2 volFill, weight_fill_rate := pyRound2 wFill,
            floor_fill_rate := pyRound2 fFill,
            fill_rate := pyRound2 (max volFill (max wFill fFill)) }
        let acc' := acc ++ [load]
        if 50 < acc'.length then acc'
        else allocateGo available fuel priority kept acc'

/-- The per-type summary groups returned by `_allocate_items_to_trucks`. -/
structure TruckGroup where
  ttype : String
  name : String
  quantity : ℕ
  trucks_details : List TruckLoad
  total_items : ℕ
  deriving Repr, DecidableEq

/-- Grouping of the filled trucks by type, in order of first appearance. -/
def groupTrucks (loads : List TruckLoad) : List TruckGroup :=
  loads.foldl
    (fun gs t =>
      if gs.any (·.ttype == t.ttype) then
        gs.map fun g =>
          if g.ttype == t.ttype then
            { g with
              quantity := g.quantity + 1
              trucks_details := g.trucks_details ++ [t]
              total_items := g.total_items + t.item_count }
          else g
      else gs ++ [{ ttype := t.ttype, name := t.name, quantity := 1,
                    trucks_details := [t], total_items := t.item_count }])
    []

/-- The `_allocate_items_to_trucks` (fleet_optimizer.py): expand, sort by
(weight, volume) descending (stable), fill trucks greedily, group by
type. -/
def allocateItemsToTrucks (available : List String) (items : List Item)
    (priority : List String) : List TruckGroup :=
  let allUnits := sortBy
    (fun a b => decide (b.weight < a.weight ∨ (b.weight = a.weight ∧ b.volume ≤ a.volume)))
    (expandFleet items)
  groupTrucks (allocateGo available (allUnits.length + 2) priority allUnits [])

/-- Per-kilometre tariff used in `_sort_trucks_by_efficiency` and
`_generate_scenario`. -/
def perKmRate (t : String) : ℚ := if t = "heavy_modular" then 800 else 500

/-- The `_sort_trucks_by_efficiency` (fleet_optimizer.py): descending
volume-per-cost. -/
def sortTrucksByEfficiency (trucks : List String) (distance : ℚ) : List String :=
  let effs := trucks.filterMap fun t =>
    match catalogFind t with
    | some spec =>
        let totalCost := spec.base_cost + distance * perKmRate t
        some (t, if 0 < totalCost then spec.volume / totalCost else 0)
    | none => none
  (sortBy (fun a b => decide (b.2 ≤ a.2)) effs).map (·.1)

/-- One scenario of `suggest_scenarios`. -/
structure Scenario where
  sid : String
  name : String
  trucks : List TruckGroup
  total_trucks : ℕ
  total_cost : ℤ
  average_fill_rate : ℚ
  deriving Repr, DecidableEq

/-- The `_generate_scenario` (fleet_optimizer.py): allocation plus costs; `none`
when the allocation produced no truck groups.  The destination multiplier is
the default 1.0 (`dakar_local`). -/
def generateScenario (available : List String) (items : List Item)
    (distance : ℚ) (priority : List String) (sid nm : String) : Option Scenario :=
  let groups := allocateItemsToTrucks available items priority
  if groups = [] then none
  else
    let totalCost := (groups.map fun g =>
      let spec := (catalogFind g.ttype).getD dummyCatalogSpec
      (spec.base_cost + distance * perKmRate g.ttype) * (g.quantity : ℚ)).sum
    let fillRates := groups.flatMap fun g => g.trucks_details.map (·.fill_rate)
    let avgFill := if fillRates = [] then 0 else fillRates.sum / (fillRates.length : ℚ)
    some
      { sid := sid
        name := nm ++ " vers Dakar (Local)"
        trucks := groups
        total_trucks := (groups.map (·.quantity)).sum
        total_cost := pyRoundInt totalCost
        average_fill_rate := pyRound2 avgFill }

/-- The dictionary returned by `suggest_scenarios`. -/
structure FleetSuggestion where
  success : Bool
  scenarios : List Scenario
  recommended_scenario : Option String
  compatible_trucks : List String
  analysis : FleetAnalysis
  deriving Repr, DecidableEq

/-- First minimum by total cost (`min(scenarios, key=...)`). -/
def recommendScenario : List Scenario → Option String
  | [] => none
  | s :: rest =>
      some ((rest.foldl (fun b x => if x.total_cost < b.total_cost then x else b) s).sid)

/-- The `suggest_scenarios` (fleet_optimizer.py): the cost-optimal and
min-truck scenarios over the compatible (or fallback) truck list, with the
cheapest flagged as recommended.  No exception scenario of any kind is
produced. -/
def suggestScenarios (items : List Item) (distance : ℚ)
    (available : List String) : FleetSuggestion :=
  let an := analyzeItems items
  let compatible := filterCompatibleTrucks an available
  let costPriority := sortTrucksByEfficiency compatible distance
  let s1 := generateScenario available items distance costPriority
    "scenario_cost_optimal" "Cout Optimal"
  let volumePriority := sortBy
    (fun a b => decide (((catalogFind b).getD dummyCatalogSpec).volume ≤
      ((catalogFind a).getD dummyCatalogSpec).volume)) compatible
  let s2 := generateScenario available items distance volumePriority
    "scenario_min_trucks" "Nombre Minimal de Camions"
  let scenarios := s1.toList ++ s2.toList
  { success := true
    scenarios := scenarios
    recommended_scenario := recommendScenario scenarios
    compatible_trucks := compatible
    analysis := an }

/-! Definitions that transcribe the SPEC's wording, for comparison with the
source-derived definitions above. -/

/-- The support sum exactly as the spec/claim words it: planar overlaps
against every placement whose top face equals `z` within tolerance 1e-6
(to be compared against `min_support_ratio · L · W`). -/
def claimSupportArea (item : Item) (p : Pos) (ps : List Placement) : ℚ :=
  ps.foldl
    (fun acc q =>
      if |q.z + q.height - p.2.2| ≤ 1/1000000 then acc + overlapXY item p q else acc)
    0

/-- The GA fitness exactly as the spec/claim words it:
`placed_count · 10⁹ + total_weight · 10³ + total_volume_cm³`, with the
weights obtained through the optimizer's own lookup. -/
def claimFitness (items : List Item) (ind : Individual) : ℚ :=
  (ind.placements.length : ℚ) * 1000000000
    + (ind.placements.map (getPlacementWeight items)).sum * 1000
    + (ind.placements.map fun p => p.length * p.width * p.height).sum

/-! Concrete fixtures used by witnesses and counterexamples. -/

/-- A deterministic oracle instance (any instance does: the results proved
below hold for every oracle). -/
def oracle0 : Oracle :=
  { shuffle := fun _ l => l
    uniform := fun _ lo _ => lo
    rand := fun _ => 0
    pick := fun _ _ => 0 }

/-- A perfectly placeable item: 50×50×50 cm, 10 kg. -/
def itemC1 : Item := { length := 50, width := 50, height := 50, weight := 10, reference := "A" }

/-- A roomy truck: 100×100×100 cm interior, 1000 kg payload. -/
def truckC1 : TruckSpecs := { length := 100, width := 100, height := 100, max_weight := 1000 }

/-- Partially supported stacking fixture: the new 100×100×10 item. -/
def itemC4 : Item := { length := 100, width := 100, height := 10, weight := 5, reference := "C" }

def truckC4 : TruckSpecs := { length := 100, width := 100, height := 200, max_weight := 10000 }

/-- Supporter covering 60 % of the floor, top at z = 50. -/
def plS1 : Placement :=
  { item_id := "S1_0", x := 0, y := 0, z := 0, length := 60, width := 100, height := 50,
    weight := 100 }

/-- Supporter covering the remaining 40 %, but with top at z = 40. -/
def plS2 : Placement :=
  { item_id := "S2_0", x := 60, y := 0, z := 0, length := 40, width := 100, height := 40,
    weight := 80 }

/-- Stacking-on-non-stackable fixture: the new 100×100×50 item. -/
def itemC5 : Item := { length := 100, width := 100, height := 50, weight := 5, reference := "D" }

def truckC5 : TruckSpecs := { length := 100, width := 100, height := 200, max_weight := 10000 }

/-- A non-stackable placement filling the whole floor. -/
def plNS : Placement :=
  { item_id := "N_0", x := 0, y := 0, z := 0, length := 100, width := 100, height := 50,
    weight := 100, stackable := false }

/-- Spec scenario S4: a 240×1100×100 cm item that only fits rotated. -/
def itemS4 : Item :=
  { length := 240, width := 1100, height := 100, weight := 100, reference := "R" }

/-- Spec scenario S4 truck: 1200×250×260 cm. -/
def truckS4 : TruckSpecs := { length := 1200, width := 250, height := 260, max_weight := 10000 }

/-- Fitness fixture: one heavy, voluminous item. -/
def items7 : List Item :=
  [{ length := 1000, width := 200, height := 100, weight := 9000, reference := "b" }]

def truck7 : TruckSpecs := { length := 1000, width := 200, height := 200, max_weight := 10000 }

def plB7 : Placement :=
  { item_id := "b_0", x := 0, y := 0, z := 0, length := 1000, width := 200, height := 100,
    weight := 9000 }

/-- An individual with one placement. -/
def indA7 : Individual := { placements := [plB7] }

/-- An individual with no placements. -/
def indEmpty7 : Individual := { placements := [] }

/-- An item no truck of the catalog can carry: 2000×400×400 cm, 200 t. -/
def bigItem : Item :=
  { length := 2000, width := 400, height := 400, weight := 200000, reference := "BIG" }

/-- Touching-faces fixture: a 10×10×10 box. -/
def itemW : Item := { length := 10, width := 10, height := 10, weight := 1 }

/-- A placement whose left face is exactly at x = 20. -/
def plW : Placement :=
  { item_id := "W_0", x := 20, y := 0, z := 0, length := 10, width := 10, height := 10,
    weight := 1 }

/-! Shared helper lemmas. -/

/-- Every run of `_optimize_simple` raises: the sort key touches `Item.volume`
for nonempty input, and the volume-efficiency line touches
`truck_specs.volume` (after a possible `ZeroDivisionError`) otherwise. -/
theorem optimizeSimple_isError (items : List Item) (truck : TruckSpecs) :
    ∃ e, optimizeSimple items truck = Except.error e := by
  cases hE : expandSimple items with
  | nil =>
      by_cases hm : truck.max_weight = 0
      · exact ⟨PyErr.zeroDivisionError, by
          simp [optimizeSimple, hE, sortExpandedByVolume, List.foldlM, pyDiv, hm,
            truckVolumeAttr, Except.bind, bind, pure, Except.pure]⟩
      · exact ⟨PyErr.attributeError, by
          simp [optimizeSimple, hE, sortExpandedByVolume, List.foldlM, pyDiv, hm,
            truckVolumeAttr, Except.bind, bind, pure, Except.pure]⟩
  | cons a l =>
      exact ⟨PyErr.attributeError, by
        simp [optimizeSimple, hE, sortExpandedByVolume, Except.bind, bind]⟩

/-- Successful bind in the tick-state monad factors through a successful
first stage. -/
theorem gam_bind_ok {α β : Type} {m : GaM α} {g : α → GaM β} {s : ℕ} {out : β × ℕ}
    (h : (m >>= g) s = Except.ok out) :
    ∃ p, m s = Except.ok p ∧ g p.1 p.2 = Except.ok out := by
  have hb : (m >>= g) s = Except.bind (m s) (fun p => g p.1 p.2) := rfl
  rw [hb] at h
  cases hm : m s with
  | error e => rw [hm] at h; simp [Except.bind] at h
  | ok p =>
      rw [hm] at h
      simp only [Except.bind] at h
      exact ⟨p, rfl, h⟩

/-- The result stage of `_optimize_genetic` can only return without raising
through its no-solution branch: with a best individual it reads the
nonexistent `truck_specs.volume` and raises. -/
theorem geneticResult_ok (items : List Item) (truck : TruckSpecs)
    (expanded : List (Item × String)) (st : GaState) (s : ℕ)
    (out : OptimizationResult × ℕ)
    (h : geneticResult items truck expanded st s = Except.ok out) :
    out.1.placements = [] ∧ out.1.success = false := by
  unfold geneticResult at h
  cases hb : st.best with
  | none =>
      rw [hb] at h
      simp only [pure, StateT.pure, Except.pure, Except.ok.injEq] at h
      cases h
      simp
  | some best =>
      rw [hb] at h
      exfalso
      by_cases hm : truck.max_weight = 0 <;>
        simp [liftE, pyDiv, hm, truckVolumeAttr, bind, StateT.bind, Except.bind] at h

/-- Any non-raising run of `_optimize_genetic` produced the no-solution
result: empty placements, `success = False`. -/
theorem optimizeGenetic_ok (o : Oracle) (items : List Item) (truck : TruckSpecs)
    (cfg : AlgorithmConfig) (s : ℕ) (out : OptimizationResult × ℕ)
    (h : optimizeGenetic o items truck cfg s = Except.ok out) :
    out.1.placements = [] ∧ out.1.success = false := by
  unfold optimizeGenetic at h
  obtain ⟨p1, h1, h2⟩ := gam_bind_ok h
  obtain ⟨p2, h3, h4⟩ := gam_bind_ok h2
  exact geneticResult_ok items truck (expandGenetic items) p2.1 p2.2 out h4

/-- Every call of `optimize` — any items, truck, configuration and RNG
behaviour — returns a result with no placements and `success = False`. -/
theorem optimize_result_empty (o : Oracle) (items : List Item) (truck : TruckSpecs)
    (cfg : AlgorithmConfig) :
    (optimize o items truck cfg).placements = [] ∧
      (optimize o items truck cfg).success = false := by
  unfold optimize
  by_cases h1 : cfg.algorithm = "simple"
  · obtain ⟨e, he⟩ := optimizeSimple_isError items truck
    simp [h1, he]
  · by_cases h2 : cfg.algorithm = "genetic"
    · simp only [h1, h2, if_false, if_true]
      cases hg : optimizeGenetic o items truck cfg 0 with
      | ok p =>
          have hp := optimizeGenetic_ok o items truck cfg 0 p hg
          simp [hp.1, hp.2]
      | error e => simp
    · simp [h1, h2]

/-- An empty Python range. -/
theorem pyRange0_nil (stop : ℤ) (step : ℕ) (h : stop ≤ 0) : pyRange0 stop step = [] := by
  unfold pyRange0; rw [if_pos (Or.inl h)]

set_option maxRecDepth 8000

/-! Claim C1. -/

/-- C1 (code bug): the claim says `optimize` with algorithm `"simple"`
succeeds on every valid input, rejecting only invalid dimensions or an
unknown algorithm.  In fact every `"simple"` call returns `success = False`:
`_optimize_simple` sorts with the key `item.volume` and computes
`placed_volume / truck_specs.volume`, attributes that neither dataclass
defines, and builds `Placement(...)` without the required `weight` field,
so an `AttributeError`/`TypeError` is always raised and caught by
`optimize`'s blanket `except`. -/
theorem optimize_simple_never_succeeds (o : Oracle) (items : List Item)
    (truck : TruckSpecs) (cfg : AlgorithmConfig)
    (halg : cfg.algorithm = "simple") :
    (optimize o items truck cfg).success = false := by
  unfold optimize
  obtain ⟨e, he⟩ := optimizeSimple_isError items truck
  simp [halg, he]

/-- C1 witness: a strictly positive 50×50×50 item, 10 kg, in a roomy
100×100×100 truck — the claim expects `success = True`; the code returns
`success = False`. -/
theorem optimize_simple_never_succeeds_witness :
    (optimize oracle0 [itemC1] truckC1 { algorithm := "simple" }).success = false :=
  optimize_simple_never_succeeds oracle0 [itemC1] truckC1 { algorithm := "simple" } rfl

/-! Claim C2. -/

/-- C2: every placement set returned by `optimize`, under either algorithm,
has total looked-up weight at most `truck.max_weight`.  This holds — but
only because every returned placement list is empty: any run that would
commit a placement raises (`Placement` built without `weight`,
`Item.volume`/`truck_specs.volume` missing) and the error result carries no
placements. -/
theorem optimize_weight_within_capacity (o : Oracle) (items : List Item)
    (truck : TruckSpecs) (cfg : AlgorithmConfig) (h : 0 ≤ truck.max_weight) :
    ((optimize o items truck cfg).placements.map (getPlacementWeight items)).sum
      ≤ truck.max_weight := by
  rw [(optimize_result_empty o items truck cfg).1]
  simpa using h

/-- C2 witness at a concrete genetic-default call. -/
theorem optimize_weight_within_capacity_witness :
    ((optimize oracle0 [itemC1] truckC1 {}).placements.map
      (getPlacementWeight [itemC1])).sum ≤ truckC1.max_weight :=
  optimize_weight_within_capacity oracle0 [itemC1] truckC1 {}
    (by norm_num [truckC1])

/-! Claim C3. -/

/-- C3: in every placement list returned by `optimize`, under either
algorithm, each unit item identifier occurs at most once.  This holds — but
only vacuously: every returned placement list is empty, because any run
that would commit a placement raises.  (`_crossover` itself checks only
collisions, not identifier uniqueness.) -/
theorem optimize_unit_ids_unique (o : Oracle) (items : List Item)
    (truck : TruckSpecs) (cfg : AlgorithmConfig) :
    ((optimize o items truck cfg).placements.map (·.item_id)).Nodup := by
  rw [(optimize_result_empty o items truck cfg).1]
  simp

/-! Claim C4. -/

/-- C4 counterexample: the position search commits the 100×100×10 item at
z = 50 resting on two supporters of which only one (60 % of the base) has
its top at z within 1e-6 — the support sum 6000 is below
`min_support_ratio · L · W = 0.7 · 10000 = 7000`, yet the code accepts it
(its own check uses the hard-coded ratio 0.5 and a 1.0 cm tolerance). -/
theorem checkSupport_accepts_below_min_ratio :
    findFirstFitPos truckC4 itemC4 [plS1, plS2] = some (0, 0, 50) ∧
    checkSupport itemC4 (0, 0, 50) [plS1, plS2] = true ∧
    claimSupportArea itemC4 (0, 0, 50) [plS1, plS2] = 6000 ∧
    ({} : AlgorithmConfig).min_support_ratio = 7/10 ∧
    (6000 : ℚ) < (7/10) * (itemC4.length * itemC4.width) := by
  refine ⟨by with_unfolding_all rfl, by with_unfolding_all rfl,
    by with_unfolding_all rfl, rfl, by norm_num [itemC4]⟩

/-- C4 (amended): every position the placer's search accepts at height
z ≠ 0 has support sum at least `0.5 · L · W` over the placements whose top
is within 1.0 cm of z; the configured `min_support_ratio` (default 0.7) is
never consulted. -/
theorem findFirstFit_support_at_least_half (truck : TruckSpecs) (item : Item)
    (ps : List Placement) (x y z : ℚ)
    (hfind : findFirstFitPos truck item ps = some (x, y, z)) (hz : z ≠ 0) :
    item.length * item.width * (1/2) ≤ supportArea item (x, y, z) ps := by
  simp only [findFirstFitPos] at hfind
  obtain ⟨zc, hzmem, h1⟩ := List.exists_of_findSome?_eq_some hfind
  obtain ⟨yc, hymem, h2⟩ := List.exists_of_findSome?_eq_some h1
  obtain ⟨xc, hxmem, h3⟩ := List.exists_of_findSome?_eq_some h2
  by_cases hg : checkCollision item ((xc:ℚ), (yc:ℚ), (zc:ℚ)) ps = false ∧
      (zc = 0 ∨ checkSupport item ((xc:ℚ), (yc:ℚ), (zc:ℚ)) ps = true)
  · rw [if_pos hg] at h3
    injection h3 with h3
    have hxx : (xc:ℚ) = x := congrArg Prod.fst h3
    have hyy : (yc:ℚ) = y := congrArg (fun p => p.2.1) h3
    have hzz : (zc:ℚ) = z := congrArg (fun p => p.2.2) h3
    rcases hg.2 with hz0 | hsupp
    · exact absurd (by rw [← hzz, hz0]; try simp) hz
    · have hs := of_decide_eq_true hsupp
      rwa [hxx, hyy, hzz] at hs
  · rw [if_neg hg] at h3
    exact absurd h3 (by simp)

/-- C4 amended-claim witness at the concrete fixture. -/
theorem findFirstFit_support_at_least_half_witness :
    itemC4.length * itemC4.width * (1/2) ≤ supportArea itemC4 (0, 0, 50) [plS1, plS2] :=
  findFirstFit_support_at_least_half truckC4 itemC4 [plS1, plS2] 0 0 50
    (by with_unfolding_all rfl) (by norm_num)

/-! Claim C5. -/

/-- C5 (code bug): the claim — and the `stackable` field's own comment in
models/item.py ("si False => interdit d'empiler au-dessus") — forbid any
overlap with a non-stackable supporter.  The placer never reads the flag:
with a non-stackable 100×100×50 placement filling the floor of a
100×100×200 truck, the search places a second 100×100×50 item directly on
top of it (full 10000 cm² overlap with the non-stackable supporter whose
top is at z = 50). -/
theorem findFirstFit_stacks_on_non_stackable :
    plNS.stackable = false ∧
    findFirstFitPos truckC5 itemC5 [plNS] = some (0, 0, 50) ∧
    plNS.z + plNS.height = 50 ∧
    0 < overlapXY itemC5 (0, 0, 50) plNS := by
  refine ⟨rfl, by with_unfolding_all rfl, by norm_num [plNS], ?_⟩
  have hov : overlapXY itemC5 (0, 0, 50) plNS = 10000 := by with_unfolding_all rfl
  rw [hov]; norm_num

/-! Claim C6. -/

/-- C6 counterexample: `Item.rotations` would offer both horizontal
orientations of the 240×1100×100 item, but the placer never calls it — the
spec's S4 scenario item is NOT placed in the 1200×250×260 truck (the
returned placement list is empty), contradicting the claim that with
`allow_rotation = true` it is placed rotated to L = 1100. -/
theorem rotation_needed_item_unplaced :
    Item.rotations itemS4 true = [(240, 1100, 100), (1100, 240, 100)] ∧
    findFirstFitPos truckS4 itemS4 [] = none ∧
    (optimize oracle0 [itemS4] truckS4 { algorithm := "simple" }).placements = [] := by
  refine ⟨by with_unfolding_all rfl, by with_unfolding_all rfl, by with_unfolding_all rfl⟩

/-- C6 (amended): the placer tries only the item's given orientation
(`allow_rotation` and `Item.rotations` are never consulted): any item at
least 1 cm wider than the truck interior is never assigned a position, even
when the rotated orientation would fit. -/
theorem findFirstFit_none_when_item_too_wide (truck : TruckSpecs) (item : Item)
    (ps : List Placement) (h : truck.width + 1 ≤ item.width) :
    findFirstFitPos truck item ps = none := by
  have hq : truck.width - item.width ≤ -1 := by linarith
  have hstop : pyInt (truck.width - item.width) + 1 ≤ 0 := by
    unfold pyInt
    split
    · next h0 => exfalso; linarith
    · have hc : ⌈truck.width - item.width⌉ ≤ (-1 : ℤ) := by
        rw [Int.ceil_le]; push_cast; linarith
      omega
  simp only [findFirstFitPos]
  rw [pyRange0_nil _ _ hstop]
  simp [List.findSome?_eq_none_iff]

/-- C6 amended-claim witness: the S4 item (width 1100) in the S4 truck
(width 250). -/
theorem findFirstFit_none_when_item_too_wide_witness :
    findFirstFitPos truckS4 itemS4 [] = none :=
  findFirstFit_none_when_item_too_wide truckS4 itemS4 []
    (by norm_num [truckS4, itemS4])

/-! Claim C7. -/

/-- C7 counterexample: `_evaluate_fitness` is not the claimed lexicographic
formula.  Evaluating an individual with one placement raises
`AttributeError` (it reads the nonexistent `truck_specs.volume`) instead of
returning `placed_count·10⁹ + weight·10³ + volume = 1029000000`, while the
empty individual scores 0.0 — so placing strictly more items does not give
a strictly higher fitness value. -/
theorem fitness_formula_refuted :
    evaluateFitness items7 truck7 indA7 = Except.error PyErr.attributeError ∧
    evaluateFitness items7 truck7 indA7 ≠ Except.ok (claimFitness items7 indA7) ∧
    claimFitness items7 indA7 = 1029000000 ∧
    evaluateFitness items7 truck7 indEmpty7 = Except.ok 0 ∧
    indEmpty7.placements.length < indA7.placements.length := by
  have h1 : evaluateFitness items7 truck7 indA7 = Except.error PyErr.attributeError := by
    with_unfolding_all rfl
  refine ⟨h1, ?_, by with_unfolding_all rfl, by with_unfolding_all rfl,
    by simp [indA7, indEmpty7]⟩
  rw [h1]
  intro hcontra
  exact Except.noConfusion hcontra

/-- C7 (amended): the only fitness value `_evaluate_fitness` can return is
0.0, for the empty individual; every nonempty individual's evaluation
raises before producing a value, so no fitness comparison between
individuals with different placement counts ever takes place. -/
theorem fitness_ok_only_for_empty (items : List Item) (truck : TruckSpecs)
    (ind : Individual) (q : ℚ)
    (h : evaluateFitness items truck ind = Except.ok q) :
    q = 0 ∧ ind.placements = [] := by
  unfold evaluateFitness at h
  split at h
  · next hnil => injection h with h; exact ⟨h.symm, hnil⟩
  · next hne =>
      exfalso
      by_cases hm : truck.max_weight = 0 <;>
        simp [pyDiv, hm, truckVolumeAttr, bind, Except.bind] at h

/-- C7 amended-claim witness at the empty individual. -/
theorem fitness_ok_only_for_empty_witness :
    (0 : ℚ) = 0 ∧ indEmpty7.placements = [] :=
  fitness_ok_only_for_empty items7 truck7 indEmpty7 0 (by with_unfolding_all rfl)

/-! Claim C8. -/

/-- C8 counterexample: for a 2000×400×400 cm, 200 t item that no catalog
truck can accommodate, `suggest_scenarios` does not emit an exception
scenario — `_filter_compatible_trucks` falls back to the FULL catalog and
both generated scenarios allocate the unit `BIG_1` to a `heavy_modular`
truck whose envelope (1500 cm) and payload (100 t) it exceeds. -/
theorem fleet_allocates_incompatible_truck :
    (suggestScenarios [bigItem] 100 catalogKeys).scenarios.map
        (fun s => (s.sid, s.trucks.map fun g =>
          (g.ttype, g.quantity, g.trucks_details.map fun t => t.items.map (·.uid)))) =
      [("scenario_cost_optimal", [("heavy_modular", 1, [["BIG_1"]])]),
       ("scenario_min_trucks", [("heavy_modular", 1, [["BIG_1"]])])] ∧
    (suggestScenarios [bigItem] 100 catalogKeys).compatible_trucks = catalogKeys ∧
    truckCatalog.all
      (fun spec => decide (spec.length < bigItem.length) &&
        decide (spec.max_weight < bigItem.weight)) = true := by
  refine ⟨by with_unfolding_all rfl, by with_unfolding_all rfl,
    by with_unfolding_all rfl⟩

/-- C8 (amended): when no available truck passes the compatibility test,
`_filter_compatible_trucks` returns the entire catalog instead of an empty
list, so the scenario generators proceed to allocate the unserved items to
incompatible trucks; no exception scenario exists anywhere in the result. -/
theorem filter_compatible_falls_back_to_catalog (an : FleetAnalysis)
    (available : List String)
    (h : ∀ t ∈ available,
      (match catalogFind t with
       | some spec => truckCompatOK an spec
       | none => false) = false) :
    filterCompatibleTrucks an available = catalogKeys := by
  unfold filterCompatibleTrucks
  have hf : (available.filter fun t =>
      match catalogFind t with
      | some spec => truckCompatOK an spec
      | none => false) = [] := by
    rw [List.filter_eq_nil_iff]
    intro t ht
    simp [h t ht]
  rw [hf, if_pos rfl]

/-- C8 amended-claim witness at the infeasible item. -/
theorem filter_compatible_falls_back_to_catalog_witness :
    filterCompatibleTrucks (analyzeItems [bigItem]) catalogKeys = catalogKeys :=
  filter_compatible_falls_back_to_catalog (analyzeItems [bigItem]) catalogKeys
    (by with_unfolding_all decide)

/-! Claim C9. -/

/-- C9: boxes whose faces exactly touch on any axis do not collide — the
collision test uses strict inequalities on all six separating conditions
(and has no clearance parameter, i.e. clearance is identically zero), so
side-by-side and stacked touching boxes are legal. -/
theorem checkCollision_touching_faces (item : Item) (x y z : ℚ)
    (ps : List Placement)
    (h : ∀ q ∈ ps, x + item.length = q.x ∨ q.x + q.length = x ∨
      y + item.width = q.y ∨ q.y + q.width = y ∨
      z + item.height = q.z ∨ q.z + q.height = z) :
    checkCollision item (x, y, z) ps = false := by
  simp only [checkCollision, List.any_eq_false]
  intro q hq
  rcases h q hq with h1 | h1 | h1 | h1 | h1 | h1 <;> simp [h1]

/-- C9 witness: a 10×10×10 box at x = 10 exactly touching a box starting at
x = 20. -/
theorem checkCollision_touching_faces_witness :
    checkCollision itemW (10, 0, 0) [plW] = false :=
  checkCollision_touching_faces itemW 10 0 0 [plW] (by
    intro q hq
    rw [List.mem_singleton] at hq
    subst hq
    left
    norm_num [itemW, plW])

/-! Claim C10. -/

/-- C10: `Item.from_dict` silently rescales each dimension through
`_normalize_cm` — values ≥ 1000 are multiplied by 0.1, values in (0, 10]
by 100, values strictly between 10 and 1000 pass through — while
`TruckSpecs.from_dict` never rescales. -/
theorem fromDict_rescales_items_not_trucks (L W H wt mw : ℚ) (q : ℕ) (sb : Bool) :
    ((Item.fromDict L W H wt q none (some "r") sb).length = normalizeCm L ∧
     (Item.fromDict L W H wt q none (some "r") sb).width = normalizeCm W ∧
     (Item.fromDict L W H wt q none (some "r") sb).height = normalizeCm H) ∧
    (∀ v : ℚ, 1000 ≤ v → normalizeCm v = v * (1/10)) ∧
    (∀ v : ℚ, 0 < v → v ≤ 10 → normalizeCm v = v * 100) ∧
    (∀ v : ℚ, 10 < v → v < 1000 → normalizeCm v = v) ∧
    ((TruckSpecs.fromDict L W H mw).length = L ∧
     (TruckSpecs.fromDict L W H mw).width = W ∧
     (TruckSpecs.fromDict L W H mw).height = H) := by
  refine ⟨⟨rfl, rfl, rfl⟩, ?_, ?_, ?_, ⟨rfl, rfl, rfl⟩⟩
  · intro v hv
    simp [normalizeCm, hv]
  · intro v hv0 hv10
    have hnot : ¬ (1000 ≤ v) := by linarith
    simp [normalizeCm, hnot, hv0, hv10]
  · intro v h10 h1000
    have hn1 : ¬ (1000 ≤ v) := by linarith
    have hn2 : ¬ v ≤ 10 := by linarith
    simp [normalizeCm, hn1, hn2]

/-- C10 witness: 1500 mm → 150 cm, 5 m → 500 cm, 300 cm unchanged; a
1360 cm truck length stays 1360. -/
theorem fromDict_rescales_items_not_trucks_witness :
    normalizeCm 1500 = 150 ∧ normalizeCm 5 = 500 ∧ normalizeCm 300 = 300 ∧
    (TruckSpecs.fromDict 1360 248 270 26000).length = 1360 := by
  have h := fromDict_rescales_items_not_trucks 1360 248 270 1 26000 1 true
  refine ⟨?_, ?_, ?_, h.2.2.2.2.1⟩
  · rw [h.2.1 1500 (by norm_num)]; norm_num
  · rw [h.2.2.1 5 (by norm_num) (by norm_num)]; norm_num
  · exact h.2.2.2.1 300 (by norm_num) (by norm_num)
